import Mathlib

/-!
Shallow embedding of the LoRaWAN payload codec drivers of this repository:
three JavaScript files, each exporting `decodeUplink` (and, for the
sample driver, `encodeDownlink` / `decodeDownlink`).

JavaScript semantics modelled explicitly:
* a `Buffer` read out of bounds yields `undefined`; arithmetic on
  `undefined` yields `NaN`; both are cases of `JsNum`;
* calling a method on `undefined` throws a `TypeError`;
* reading an undeclared variable throws a `ReferenceError`;
* `Buffer.writeUInt8` / `readInt8` out of range throw a `RangeError`;
* `Buffer.from(array)` coerces every element to an unsigned byte;
* `Array.prototype.toString` ignores its radix argument and joins the
  elements, rendered in decimal, with commas.

Exceptions escaping a driver function are modelled with `Except JsErr`.
-/

/-- A JavaScript exception escaping the driver function.  `outOfFuel` is a
model artifact of the bounded loop encodings below; every loop is supplied
more fuel than its iteration count, so `outOfFuel` is unreachable. -/
inductive JsErr where
  | typeError
  | referenceError
  | rangeError
  | outOfFuel
deriving DecidableEq, Repr

deriving instance DecidableEq for Except

/-- A JavaScript numeric-context value stored into a result field:
either a proper number, `NaN`, or `undefined`. -/
inductive JsNum where
  | jsUndefined
  | nan
  | int (n : Nat)
deriving DecidableEq, Repr

/-- `Buffer.from` on a numeric array: each element is coerced to an
unsigned 8-bit value; the length is preserved. -/
def bufferFrom (bs : List Nat) : List Nat := bs.map (· % 256)

/-- An in-bounds-or-`undefined` buffer read, `raw[i]`. -/
def rdNum (bs : List Nat) (i : Nat) : JsNum :=
  match bs[i]? with
  | some n => .int n
  | none => .jsUndefined

/-- `raw[i]*256**3 + raw[i+1]*256**2 + raw[i+2]*256 + raw[i+3]`: a proper
number when all four reads are in bounds, `NaN` otherwise. -/
def u32be (bs : List Nat) (i : Nat) : JsNum :=
  match bs[i]?, bs[i+1]?, bs[i+2]?, bs[i+3]? with
  | some a, some b, some c, some d => .int (a * 256 ^ 3 + b * 256 ^ 2 + c * 256 + d)
  | _, _, _, _ => .nan

/-- `raw[i]*256 + raw[i+1]`: a proper number when both reads are in
bounds, `NaN` otherwise. -/
def u16be (bs : List Nat) (i : Nat) : JsNum :=
  match bs[i]?, bs[i+1]? with
  | some a, some b => .int (a * 256 + b)
  | _, _ => .nan

/-- Decimal digit characters of `n`, most significant first, with
structural fuel (sufficient whenever `fuel > 0`, since the accumulating
base case emits the remaining low digit). -/
def decCharsAux : Nat → Nat → List Char
  | 0, _ => []
  | fuel + 1, n =>
      if n < 10 then [Nat.digitChar n]
      else decCharsAux fuel (n / 10) ++ [Nat.digitChar (n % 10)]

/-- Decimal rendering of a natural number, as JavaScript renders a
nonnegative integer in a template string or in `Array.join`. -/
def decChars (n : Nat) : List Char := decCharsAux (n + 1) n

/-- Decimal rendering of a natural number as a `String`. -/
def decStr (n : Nat) : String := String.mk (decChars n)

/-- Rendering of a `JsNum` in a JavaScript template string. -/
def jsShowN : JsNum → String
  | .jsUndefined => "undefined"
  | .nan => "NaN"
  | .int n => decStr n

/-- An apostrophe, as it appears in the quoted error messages. -/
def apos : String := String.mk [Char.ofNat 39]

/-- `Array.prototype.toString` joins the decimal renderings with commas. -/
def commaJoin : List (List Char) → List Char
  | [] => []
  | [x] => x
  | x :: y :: xs => x ++ ',' :: commaJoin (y :: xs)

/-- `Buffer.from(input.bytes.toString(16))`: the radix argument is ignored
by `Array.prototype.toString`, so this is the UTF-8 (here pure-ASCII) byte
view of the comma-joined decimal rendering of the elements. -/
def rawHexOf (bytes : List Nat) : List Nat :=
  (commaJoin (bytes.map decChars)).map Char.toNat

/-- `n.toString(16)` for an unsigned byte value: one or two lowercase
hexadecimal digits, no padding. -/
def byteHex (n : Nat) : String :=
  if n < 16 then String.mk [Nat.digitChar n]
  else String.mk [Nat.digitChar (n / 16), Nat.digitChar (n % 16)]

/-- `Invalid uplink payload: length exceeds 30 bytes` -/
def msgLen30 : String := "Invalid uplink payload: length exceeds 30 bytes"

/-- `Invalid uplink payload: unknown id (dis)` quoted, shared message shape. -/
def msgUnknownId (v : JsNum) : String :=
  "Invalid uplink payload: unknown id " ++ apos ++ jsShowN v ++ apos

/-! ## `src/unnamed/part_000` (`decodeUplink` only) -/

/-- The result-data fields that the part_000 driver can populate. -/
structure P0Data where
  frame_type : Option String := none
  device_id : Option String := none
  port : Option JsNum := none
  device_date_time : Option JsNum := none
  firmware : Option String := none
  name : Option String := none
  tcp_ip : Option String := none
  tcp_port : Option JsNum := none
  slave_id : Option JsNum := none
  modbus : Option JsNum := none
  start_value : Option JsNum := none
  registers_quiered : Option JsNum := none
  data_bytes : Option JsNum := none
  c1 : Option JsNum := none
  c2 : Option JsNum := none
  ea : Option JsNum := none
  er : Option JsNum := none
  ea_imp : Option JsNum := none
  er_ind_imp : Option JsNum := none
  er_cap_imp : Option JsNum := none
  es_imp : Option JsNum := none
deriving DecidableEq, Repr

/-- A `DecodedUplink` of part_000: `data` is absent after
`delete result.data`, and errors / warnings are string lists. -/
structure P0Result where
  data : Option P0Data := none
  errors : List String := []
  warnings : List String := []
deriving DecidableEq, Repr

/-- The data-frame header fields of part_000, read at fixed offsets once
`raw.byteLength >= 14` has been checked (offsets 1-13 are then in bounds). -/
def p0DataHeader (raw : List Nat) : P0Data :=
  { frame_type := some "Data frame"
    tcp_ip := some (jsShowN (rdNum raw 1) ++ "." ++ jsShowN (rdNum raw 2) ++ "." ++
      jsShowN (rdNum raw 3) ++ "." ++ jsShowN (rdNum raw 4))
    tcp_port := some (u16be raw 5)
    slave_id := some (rdNum raw 7)
    modbus := some (rdNum raw 8)
    start_value := some (u16be raw 9)
    registers_quiered := some (u16be raw 11)
    data_bytes := some (rdNum raw 13) }

/-- The status-frame branch of part_000 `decodeUplink` (case `0x11`).
It reads `raw[13].toString(16)` to start the name accumulation; when the
frame is exactly 13 bytes long that read yields `undefined` and the method
call throws a `TypeError`. -/
def p0Status (raw : List Nat) : Except JsErr P0Result :=
  if raw.length < 13 then
      .ok { data := none,
            errors := ["Invalid uplink payload: index out of bounds when reading status frame"] }
    else
      match raw[13]? with
      | none => .error .typeError
      | some _ =>
        let d : P0Data :=
          { frame_type := some "Status frame"
            device_id := some ("00" ++ byteHex (raw.getD 1 0) ++ byteHex (raw.getD 2 0) ++
              byteHex (raw.getD 3 0) ++ byteHex (raw.getD 4 0))
            port := some (rdNum raw 5)
            device_date_time := some (u32be raw 6)
            firmware := some (byteHex (raw.getD 10 0) ++ "." ++ byteHex (raw.getD 11 0) ++ "." ++
              byteHex (raw.getD 12 0))
            name := some (String.join ((raw.drop 13).map byteHex)) }
        .ok { data := some d }

/-- The data-frame branch of part_000 `decodeUplink` (case `0x01`), with
its secondary dispatch on the header byte `raw[7]`. -/
def p0Frame (raw : List Nat) : P0Result :=
  if raw.length < 14 then
    { data := none,
      errors := ["Invalid uplink payload: index out of bounds when reading data frame"] }
  else
    if raw.getD 7 0 = 0x0a then
      let d : P0Data := { p0DataHeader raw with
        frame_type := some "Data frame - GAS METER"
        c1 := some (u32be raw 14) }
      { data := some d }
    else if raw.getD 7 0 = 0x0b then
      let d : P0Data := { p0DataHeader raw with
        frame_type := some "Data frame - WATER METER"
        c1 := some (u32be raw 14), c2 := some (u32be raw 18) }
      { data := some d }
    else if raw.getD 7 0 = 0x0c then
      let d : P0Data := { p0DataHeader raw with
        frame_type := some "Data frame - ENERGY METER"
        ea := some (u32be raw 14), er := some (u32be raw 18) }
      { data := some d }
    else if raw.getD 7 0 = 0xf7 then
      let d : P0Data := { p0DataHeader raw with
        frame_type := some "Data frame - IMPORTED ENERGY"
        ea_imp := some (u32be raw 14), er_ind_imp := some (u32be raw 18)
        er_cap_imp := some (u32be raw 22), es_imp := some (u32be raw 26) }
      { data := some d }
    else
      { data := none,
        errors := ["Invalid uplink payload: unknown data frame type"] }

/-- `decodeUplink` of `src/unnamed/part_000`: length guard, then the
`switch (raw[0])` dispatch; the default branch pushes the unknown-frame
error but does not delete the (still empty) `result.data`. -/
def part000_decodeUplink (bytes : List Nat) : Except JsErr P0Result :=
  if (bufferFrom bytes).length > 30 then
    .ok { data := none, errors := [msgLen30] }
  else if (bufferFrom bytes)[0]? = some 0x11 then
    p0Status (bufferFrom bytes)
  else if (bufferFrom bytes)[0]? = some 0x01 then
    .ok (p0Frame (bufferFrom bytes))
  else
    .ok { data := some {}, errors := ["Invalid uplink payload: unknown frame type"] }

/-! ## `src/template/Electrex-vendor/drivers/sample-driver/index.js` -/

/-- The result-data fields the sample driver uplink decoder can populate. -/
structure IdxData where
  frame : Option String := none
  device_id : Option String := none
  port : Option String := none
  device_date_time : Option JsNum := none
  firmware : Option String := none
  name : Option String := none
  temperature : Option Rat := none
  humidity : Option Rat := none
  pulseCounter : Option Int := none
deriving DecidableEq, Repr

/-- A `DecodedUplink` of the sample driver. -/
structure IdxResult where
  data : Option IdxData := none
  errors : List String := []
  warnings : List String := []
deriving DecidableEq, Repr

/-- `raw.readInt16BE(i)` under the guard that both bytes are in bounds. -/
def readInt16BE (bs : List Nat) (i : Nat) : Int :=
  let v := bs.getD i 0 * 256 + bs.getD (i + 1) 0
  if v < 32768 then (v : Int) else (v : Int) - 65536

/-- The name accumulation of tag `0x04`:
`for (j = i; j < stop; j++) name = template(name, rawHEX[j])`, starting
from the current (never previously assigned, hence `undefined`) name. -/
def idxNameCat (rhx : List Nat) (i stop : Nat) : String :=
  "undefined" ++ String.join ((List.range (stop - i)).map fun k => jsShowN (rdNum rhx (i + k)))

/-- The second loop of the sample driver `decodeUplink` (line 88): a
self-describing tag stream over `raw` starting at cursor `i`.  The loop
header advances the cursor by 1 on top of the per-tag `i += 2` / `i += 1`,
for net advances of 3 (temperature), 3 (humidity) and 2 (pulse counter).
Tag `0x02` calls `raw.readInt8(i+1)` without a bounds check; out of range
this throws a `RangeError`. -/
def idxStream (raw : List Nat) : Nat → Nat → IdxData → Except JsErr IdxResult
  | 0, _, _ => .error .outOfFuel
  | fuel + 1, i, d =>
    if i < raw.length then
      if raw.getD i 0 = 0x00 then
        if raw.length < i + 3 then
          .ok { data := none,
                errors := ["Invalid uplink payload: index out of bounds when reading temperature"] }
        else
          idxStream raw fuel (i + 3)
            { d with temperature := some ((readInt16BE raw (i + 1) : Rat) / 100) }
      else if raw.getD i 0 = 0x01 then
        if raw.length < i + 3 then
          .ok { data := none,
                errors := ["Invalid uplink payload: index out of bounds when reading humidity"] }
        else
          idxStream raw fuel (i + 3)
            { d with humidity := some ((readInt16BE raw (i + 1) : Rat) / 100) }
      else if raw.getD i 0 = 0x02 then
        match raw[i + 1]? with
        | none => .error .rangeError
        | some b =>
          idxStream raw fuel (i + 2)
            { d with pulseCounter := some (if b < 128 then (b : Int) else (b : Int) - 256) }
      else
        .ok { data := none, errors := [msgUnknownId (rdNum raw i)] }
    else
      .ok { data := some d }

/-- The status-frame loop of the sample driver `decodeUplink` (line 33):
tag dispatch starting at cursor 1; on normal exit control falls through to
the tag-stream loop with the cursor reset to 0. -/
def idxStatus (raw rhx : List Nat) : Nat → Nat → IdxData → Except JsErr IdxResult
  | 0, _, _ => .error .outOfFuel
  | fuel + 1, i, d =>
    if i < raw.length then
      if raw.getD i 0 = 0x00 then
        if raw.length < i + 4 then
          .ok { data := none,
                errors := ["Invalid uplink payload: index out of bounds when reading Device ID"] }
        else
          idxStatus raw rhx fuel (i + 5)
            { d with device_id := some (jsShowN (rdNum rhx i) ++ jsShowN (rdNum rhx (i + 1)) ++
                jsShowN (rdNum rhx (i + 2)) ++ jsShowN (rdNum rhx (i + 3))) }
      else if raw.getD i 0 = 0x01 then
        if raw.length < i + 1 then
          .ok { data := none,
                errors := ["Invalid uplink payload: index out of bounds when reading Target Port"] }
        else
          idxStatus raw rhx fuel (i + 2) { d with port := some (jsShowN (rdNum rhx i)) }
      else if raw.getD i 0 = 0x02 then
        if raw.length < i + 4 then
          .ok { data := none,
                errors := ["Invalid uplink payload: index out of bounds when reading Device Date Time"] }
        else
          idxStatus raw rhx fuel (i + 5) { d with device_date_time := some (u32be raw i) }
      else if raw.getD i 0 = 0x03 then
        if raw.length < i + 3 then
          .ok { data := none,
                errors := ["Invalid uplink payload: index out of bounds when reading Firmware Version"] }
        else
          idxStatus raw rhx fuel (i + 4)
            { d with firmware := some (jsShowN (rdNum rhx i) ++ jsShowN (rdNum rhx (i + 1)) ++
                jsShowN (rdNum rhx (i + 2))) }
      else if raw.getD i 0 = 0x04 then
        .ok { data := some { d with name := some (idxNameCat rhx i raw.length) } }
      else
        .ok { data := none, errors := [msgUnknownId (rdNum raw i)] }
    else
      idxStream raw fuel 0 d

/-- `raw[0] = 17`: the buffer store performed by the mistyped frame test
`if (raw[0] = 17)`; out-of-bounds stores on a `Buffer` are ignored. -/
def setHead17 : List Nat → List Nat
  | [] => []
  | _ :: rest => 17 :: rest

/-- `decodeUplink` of the sample driver.  The frame test is an assignment,
so its value 17 is truthy and the status branch is always entered, after
the head byte of the buffer has been overwritten with 17. -/
def idx_decodeUplink (bytes : List Nat) : Except JsErr IdxResult :=
  if (bufferFrom bytes).length > 30 then
    .ok { data := none, errors := [msgLen30] }
  else
    let raw := setHead17 (bufferFrom bytes)
    idxStatus raw (rawHexOf bytes) (2 * raw.length + 4) 1 { frame := some "Status frame" }

/-- A downlink input object `input.data` of the sample driver: the two
recognized fields, each optionally present. -/
structure DlData where
  pulseCounterThreshold : Option Int := none
  alarm : Option Bool := none
deriving DecidableEq, Repr

/-- An `EncodedDownlink` of the sample driver: `bytes` and `fPort` are set
only on success. -/
structure EncodedDl where
  bytes : Option (List Nat) := none
  fPort : Option Nat := none
  errors : List String := []
  warnings : List String := []
deriving DecidableEq, Repr

/-- `raw.writeUInt8(v, index)`: throws a `RangeError` unless
`0 <= v <= 255`; on success the byte stored is `v`. -/
def writeUInt8 (v : Int) : Except JsErr Nat :=
  if 0 ≤ v ∧ v ≤ 255 then .ok v.toNat else .error .rangeError

/-- The two bytes contributed by the `alarm` block of `encodeDownlink`
(tag `0x01`, then `alarm === true ? 1 : 0`), or nothing when absent. -/
def alarmBytes : Option Bool → List Nat
  | some a => [1, if a then 1 else 0]
  | none => []

/-- `encodeDownlink` of the sample driver.  `pulseCounterThreshold` is
checked only against the upper bound 255 before being written with
`writeUInt8`, which itself rejects negative values by throwing. -/
def encodeDownlink (d : DlData) : Except JsErr EncodedDl :=
  match d.pulseCounterThreshold with
  | some t =>
    if t > 255 then
      .ok { errors := ["Invalid downlink: pulseCounterThreshold cannot exceed 255"] }
    else
      match writeUInt8 t with
      | .error e => .error e
      | .ok tv => .ok { bytes := some ([0, tv] ++ alarmBytes d.alarm), fPort := some 16 }
  | none => .ok { bytes := some (alarmBytes d.alarm), fPort := some 16 }

/-- The result-data fields of the sample driver downlink decoder. -/
structure DlDecData where
  pulseCounterThreshold : Option Nat := none
  alarm : Option Bool := none
deriving DecidableEq, Repr

/-- A `DecodedDownlink` of the sample driver. -/
structure DlDecResult where
  data : Option DlDecData := none
  errors : List String := []
  warnings : List String := []
deriving DecidableEq, Repr

/-- The tag/value loop of `decodeDownlink` (line 197), cursor step 2. -/
def dlLoop (raw : List Nat) : Nat → Nat → DlDecData → DlDecResult
  | 0, _, _ => { data := none }
  | fuel + 1, i, d =>
    if i < raw.length then
      if raw.getD i 0 = 0x00 then
        if raw.length < i + 2 then
          { data := none,
            errors := ["Invalid downlink payload: index out of bounds when reading pulseCounterThreshold"] }
        else
          dlLoop raw fuel (i + 2) { d with pulseCounterThreshold := some (raw.getD (i + 1) 0) }
      else if raw.getD i 0 = 0x01 then
        if raw.length < i + 2 then
          { data := none,
            errors := ["Invalid downlink payload: index out of bounds when reading alarm"] }
        else
          dlLoop raw fuel (i + 2) { d with alarm := some (raw.getD (i + 1) 0 = 1) }
      else
        { data := none,
          errors := ["Invalid downlink payload: unknown id " ++ apos ++
            jsShowN (rdNum raw i) ++ apos] }
    else
      { data := some d }

/-- `decodeDownlink` of the sample driver. -/
def decodeDownlink (bytes : List Nat) : DlDecResult :=
  if (bufferFrom bytes).length > 4 then
    { data := none, errors := ["Invalid downlink payload: length exceeds 4 bytes"] }
  else
    dlLoop (bufferFrom bytes) ((bufferFrom bytes).length + 1) 0 {}

/-! ## `src/unnamed/part_001` (`decodeUplink` only) -/

/-- The result-data fields that the part_001 driver can populate. -/
structure P1Data where
  frame_type : Option String := none
  device_id : Option String := none
  port : Option String := none
  device_date_time : Option JsNum := none
  firmware : Option String := none
  name : Option String := none
  tcp_ip : Option String := none
  tcp_port : Option JsNum := none
  slave_id : Option JsNum := none
  modbus : Option JsNum := none
  start_value : Option JsNum := none
  registers_quiered : Option JsNum := none
  data_bytes : Option JsNum := none
  c1 : Option JsNum := none
  c2 : Option JsNum := none
  ea : Option JsNum := none
  er : Option JsNum := none
  ea_imp : Option JsNum := none
  er_ind_imp : Option JsNum := none
  er_cap_imp : Option JsNum := none
  es_imp : Option JsNum := none
deriving DecidableEq, Repr

/-- A `DecodedUplink` of part_001. -/
structure P1Result where
  data : Option P1Data := none
  errors : List String := []
  warnings : List String := []
deriving DecidableEq, Repr

/-- The status-frame name accumulation of part_001 (line 48): starts from
the never-assigned `result.data.name`, so the field stays absent when the
loop body never runs and otherwise begins with `undefined`. -/
def p1Name (rhx : List Nat) : Option String :=
  if rhx.length ≤ 13 then none
  else some ("undefined" ++ String.join ((rhx.drop 13).map fun b => decStr b))

/-- The data-frame header fields of part_001, read from `raw` (which,
unlike the guard, may be shorter than 14 bytes). -/
def p1DataHeader (raw : List Nat) : P1Data :=
  { frame_type := some "Data frame"
    tcp_ip := some (jsShowN (rdNum raw 1) ++ "." ++ jsShowN (rdNum raw 2) ++ "." ++
      jsShowN (rdNum raw 3) ++ "." ++ jsShowN (rdNum raw 4))
    tcp_port := some (u16be raw 5)
    slave_id := some (rdNum raw 7)
    modbus := some (rdNum raw 8)
    start_value := some (u16be raw 9)
    registers_quiered := some (u16be raw 11)
    data_bytes := some (rdNum raw 13) }

/-- The status-frame branch of part_001 `decodeUplink` (case `0x11`):
string fields come from the `rawHEX` view, the timestamp from `raw`. -/
def p1Status (raw rhx : List Nat) : P1Result :=
  if rhx.length < 28 then
      { data := none,
        errors := ["Invalid uplink payload: index out of bounds when reading Device ID"] }
    else
      let d : P1Data :=
        { frame_type := some "Status frame"
          device_id := some (jsShowN (rdNum rhx 1) ++ jsShowN (rdNum rhx 2) ++
            jsShowN (rdNum rhx 3) ++ jsShowN (rdNum rhx 4))
          port := some (jsShowN (rdNum rhx 5))
          device_date_time := some (u32be raw 6)
          firmware := some (jsShowN (rdNum rhx 10) ++ jsShowN (rdNum rhx 11) ++
            jsShowN (rdNum rhx 12))
          name := p1Name rhx }
      { data := some d }

/-- The data-frame branch of part_001 `decodeUplink` (case `0x01`): the
length guard and the secondary dispatch both read the `rawHEX` view while
the fields are extracted from `raw`. -/
def p1Frame (raw rhx : List Nat) : P1Result :=
  if rhx.length < 14 then
    { data := none,
      errors := ["Invalid uplink payload: index out of bounds when reading Fram parameters"] }
  else
    if rhx.getD 7 0 = 0x0a then
      let d : P1Data := { p1DataHeader raw with c1 := some (u32be raw 14) }
      { data := some d }
    else if rhx.getD 7 0 = 0x0b then
      let d : P1Data := { p1DataHeader raw with
        c1 := some (u32be raw 14), c2 := some (u32be raw 18) }
      { data := some d }
    else if rhx.getD 7 0 = 0x0c then
      let d : P1Data := { p1DataHeader raw with
        ea := some (u32be raw 14), er := some (u32be raw 18) }
      { data := some d }
    else if rhx.getD 7 0 = 0xf7 then
      let d : P1Data := { p1DataHeader raw with
        ea_imp := some (u32be raw 14), er_ind_imp := some (u32be raw 18)
        er_cap_imp := some (u32be raw 22), es_imp := some (u32be raw 26) }
      { data := some d }
    else
      { data := none, errors := [msgUnknownId (rdNum raw 14)] }

/-- `decodeUplink` of `src/unnamed/part_001`.  The frame switch reads
`rawHEX[0]`, the first byte of the comma-joined decimal rendering of the
input array; its default branch builds an error message from the variable
`i`, which is not declared in that scope, so evaluating it throws a
`ReferenceError`. -/
def part001_decodeUplink (bytes : List Nat) : Except JsErr P1Result :=
  if (bufferFrom bytes).length > 30 then
    .ok { data := none, errors := [msgLen30] }
  else if (rawHexOf bytes)[0]? = some 0x11 then
    .ok (p1Status (bufferFrom bytes) (rawHexOf bytes))
  else if (rawHexOf bytes)[0]? = some 0x01 then
    .ok (p1Frame (bufferFrom bytes) (rawHexOf bytes))
  else
    .error .referenceError

/-! ## Supporting lemmas -/

theorem bufferFrom_length (bs : List Nat) : (bufferFrom bs).length = bs.length :=
  List.length_map ..

theorem bufferFrom_head (bs : List Nat) (b : Nat) (h : bs[0]? = some b) :
    (bufferFrom bs)[0]? = some (b % 256) := by
  rw [bufferFrom, List.getElem?_map, h]; rfl

/-- The leading character that `decCharsAux` emits is a decimal digit. -/
theorem decCharsAux_head (fuel : Nat) : ∀ n, 0 < fuel →
    ∃ d, d < 10 ∧ (decCharsAux fuel n).head? = some (Nat.digitChar d) := by
  induction fuel with
  | zero => intro n h; omega
  | succ f ih =>
    intro n _
    rw [decCharsAux]
    by_cases hn : n < 10
    · exact ⟨n, hn, by rw [if_pos hn]; rfl⟩
    · rw [if_neg hn]
      rcases Nat.eq_zero_or_pos f with hf | hf
      · subst hf
        exact ⟨n % 10, Nat.mod_lt _ (by omega), by rw [decCharsAux]; rfl⟩
      · obtain ⟨d, hd, hh⟩ := ih (n / 10) hf
        refine ⟨d, hd, ?_⟩
        cases hcl : decCharsAux f (n / 10) with
        | nil => rw [hcl] at hh; simp at hh
        | cons a as =>
          rw [List.cons_append, List.head?_cons]
          rw [hcl, List.head?_cons] at hh
          exact hh

/-- The decimal rendering of a natural number starts with a digit. -/
theorem decChars_head (n : Nat) :
    ∃ d, d < 10 ∧ (decChars n).head? = some (Nat.digitChar d) :=
  decCharsAux_head (n + 1) n (by omega)

/-- Character codes of the ten decimal digit characters. -/
theorem digitChar_toNat_bounds (d : Nat) (hd : d < 10) :
    48 ≤ (Nat.digitChar d).toNat ∧ (Nat.digitChar d).toNat ≤ 57 := by
  interval_cases d <;> exact ⟨by decide, by decide⟩

/-- Joining a nonempty list keeps the head of its first block. -/
theorem commaJoin_cons_head (x : List Char) (xs : List (List Char)) (hx : x ≠ []) :
    (commaJoin (x :: xs)).head? = x.head? := by
  cases xs with
  | nil => rfl
  | cons y ys =>
    cases x with
    | nil => exact absurd rfl hx
    | cons a as => rfl

/-- On a nonempty byte array, `rawHEX[0]` is the character code of a
decimal digit, hence between 48 and 57. -/
theorem rawHexOf_cons_head (b : Nat) (rest : List Nat) :
    ∃ c, 48 ≤ c ∧ c ≤ 57 ∧ (rawHexOf (b :: rest))[0]? = some c := by
  obtain ⟨d, hd, hh⟩ := decChars_head b
  have hx : decChars b ≠ [] := by intro h; rw [h] at hh; simp at hh
  refine ⟨(Nat.digitChar d).toNat, (digitChar_toNat_bounds d hd).1,
    (digitChar_toNat_bounds d hd).2, ?_⟩
  rw [rawHexOf, List.map_cons, List.getElem?_map, ← List.head?_eq_getElem?,
    commaJoin_cons_head _ _ hx, hh]
  rfl

/-- Each hexadecimal rendering of a byte has one or two characters. -/
theorem byteHex_length (n : Nat) : (byteHex n).length = 1 ∨ (byteHex n).length = 2 := by
  rw [byteHex]
  split
  · left; rfl
  · right; rfl

/-- One `dlLoop` iteration on the `pulseCounterThreshold` tag. -/
theorem dlLoop_step0 (raw : List Nat) (fuel i : Nat) (d : DlDecData)
    (h : i < raw.length) (ht : raw.getD i 0 = 0x00) (hg : ¬raw.length < i + 2) :
    dlLoop raw (fuel + 1) i d =
      dlLoop raw fuel (i + 2) { d with pulseCounterThreshold := some (raw.getD (i + 1) 0) } := by
  rw [dlLoop, if_pos h, ht, if_pos rfl, if_neg hg]

/-- One `dlLoop` iteration on the `alarm` tag. -/
theorem dlLoop_step1 (raw : List Nat) (fuel i : Nat) (d : DlDecData)
    (h : i < raw.length) (ht : raw.getD i 0 = 0x01) (hg : ¬raw.length < i + 2) :
    dlLoop raw (fuel + 1) i d =
      dlLoop raw fuel (i + 2) { d with alarm := some (raw.getD (i + 1) 0 = 1) } := by
  rw [dlLoop, if_pos h, ht, if_neg (by omega), if_pos rfl, if_neg hg]

/-- `dlLoop` exit once the cursor has passed the end of the buffer. -/
theorem dlLoop_exit (raw : List Nat) (fuel i : Nat) (d : DlDecData) (h : ¬i < raw.length) :
    dlLoop raw (fuel + 1) i d = { data := some d } := by
  rw [dlLoop, if_neg h]

/-! ## Claim theorems -/

/-- Claim C1 (code bug): the spec requires that `decodeUplink` never
throws an uncaught exception.  Evaluating the embeddings at concrete
failing inputs: part_000 throws a `TypeError` on a 13-byte status frame
(it reads `raw[13].toString(16)` past the end of the buffer), and
part_001 throws a `ReferenceError` on the same in-budget payload (its
default switch branch evaluates an undeclared variable). -/
theorem uplink_decode_throws_concrete :
    part000_decodeUplink [0x11, 0, 0, 0, 0, 0, 0, 0, 0, 0, 0, 0, 0] = .error .typeError ∧
    part001_decodeUplink [0x11, 0, 0, 0, 0, 0, 0, 0, 0, 0, 0, 0, 0] = .error .referenceError := by
  constructor
  · decide
  · decide

/-- Claim C2 (code bug): the spec requires an `UnknownFrameType` error for
any unrecognized leading discriminator.  In the sample driver the frame
test is the assignment `raw[0] = 17`, which is always truthy, so the input
`[0x05, 0x04]` — leading byte neither `0x11` nor `0x01` nor a recognized
tag — reaches the status-frame tag loop and returns a success result with
populated data and no errors. -/
theorem unknown_discriminator_decodes_successfully :
    idx_decodeUplink [0x05, 0x04] =
      .ok { data := some { frame := some "Status frame", name := some "undefined44" } } ∧
    ((0x05 : Nat) ≠ 0x11 ∧ (0x05 : Nat) ≠ 0x01 ∧ (0x05 : Nat) ≠ 0x00 ∧ (0x05 : Nat) ≠ 0x02) := by
  constructor
  · decide
  · decide

/-- Claim C3 (confirmed): for every mapping containing any subset of
`pulseCounterThreshold` in `[0, 255]` and boolean `alarm`,
`encodeDownlink` succeeds with no errors and `decodeDownlink` on its byte
output returns exactly that mapping with no errors. -/
theorem downlink_encode_decode_inverse (p : Option Int) (a : Option Bool)
    (hp : ∀ t, p = some t → 0 ≤ t ∧ t ≤ 255) :
    ∃ r, encodeDownlink { pulseCounterThreshold := p, alarm := a } = .ok r ∧
      r.errors = [] ∧ r.fPort = some 16 ∧
      ∃ bts, r.bytes = some bts ∧
        decodeDownlink bts =
          { data := some { pulseCounterThreshold := p.map Int.toNat, alarm := a } } := by
  cases p with
  | none =>
    cases a with
    | none => exact ⟨_, rfl, rfl, rfl, [], rfl, by decide⟩
    | some b =>
      refine ⟨_, rfl, rfl, rfl, [1, if b then 1 else 0], rfl, ?_⟩
      cases b
      · decide
      · decide
  | some t =>
    obtain ⟨h0, h255⟩ := hp t rfl
    have htv : t.toNat % 256 = t.toNat := Nat.mod_eq_of_lt (by omega)
    have henc : encodeDownlink { pulseCounterThreshold := some t, alarm := a } =
        .ok { bytes := some ([0, t.toNat] ++ alarmBytes a), fPort := some 16 } := by
      simp only [encodeDownlink, writeUInt8]
      rw [if_neg (by omega), if_pos ⟨h0, h255⟩]
    refine ⟨_, henc, rfl, rfl, [0, t.toNat] ++ alarmBytes a, rfl, ?_⟩
    cases a with
    | none =>
      have hbuf : bufferFrom ([0, t.toNat] ++ alarmBytes none) = [0, t.toNat] := by
        simp [bufferFrom, alarmBytes, htv]
      have hl : ([0, t.toNat] : List Nat).length = 2 := rfl
      rw [decodeDownlink, hbuf, hl, if_neg (by omega),
        dlLoop_step0 [0, t.toNat] 2 0 {} (by rw [hl]; omega) rfl (by rw [hl]; omega),
        dlLoop_exit [0, t.toNat] 1 2 _ (by rw [hl]; omega)]
      rfl
    | some b =>
      cases b with
      | false =>
        have hbuf : bufferFrom ([0, t.toNat] ++ alarmBytes (some false)) = [0, t.toNat, 1, 0] := by
          simp [bufferFrom, alarmBytes, htv]
        have hl : ([0, t.toNat, 1, 0] : List Nat).length = 4 := rfl
        rw [decodeDownlink, hbuf, hl, if_neg (by omega),
          dlLoop_step0 [0, t.toNat, 1, 0] 4 0 {} (by rw [hl]; omega) rfl (by rw [hl]; omega),
          dlLoop_step1 [0, t.toNat, 1, 0] 3 2 _ (by rw [hl]; omega) rfl (by rw [hl]; omega),
          dlLoop_exit [0, t.toNat, 1, 0] 2 4 _ (by rw [hl]; omega)]
        rfl
      | true =>
        have hbuf : bufferFrom ([0, t.toNat] ++ alarmBytes (some true)) = [0, t.toNat, 1, 1] := by
          simp [bufferFrom, alarmBytes, htv]
        have hl : ([0, t.toNat, 1, 1] : List Nat).length = 4 := rfl
        rw [decodeDownlink, hbuf, hl, if_neg (by omega),
          dlLoop_step0 [0, t.toNat, 1, 1] 4 0 {} (by rw [hl]; omega) rfl (by rw [hl]; omega),
          dlLoop_step1 [0, t.toNat, 1, 1] 3 2 _ (by rw [hl]; omega) rfl (by rw [hl]; omega),
          dlLoop_exit [0, t.toNat, 1, 1] 2 4 _ (by rw [hl]; omega)]
        rfl

/-- Witness for C3 at the concrete mapping
`{pulseCounterThreshold: 10, alarm: true}`. -/
theorem downlink_encode_decode_inverse_witness :
    ∃ r, encodeDownlink { pulseCounterThreshold := some 10, alarm := some true } = .ok r ∧
      r.errors = [] ∧ r.fPort = some 16 ∧
      ∃ bts, r.bytes = some bts ∧
        decodeDownlink bts =
          { data := some { pulseCounterThreshold := (some (10 : Int)).map Int.toNat,
                           alarm := some true } } :=
  downlink_encode_decode_inverse (some 10) (some true)
    (by intro t ht; injection ht with h; subst h; omega)

/-- Claim C4 (code bug): the spec requires the 13-byte minimum boundary of
the status frame to succeed.  In part_000 a 12-byte status frame does fail
with the truncation error, but every 13-byte status frame passes the
`< 13` guard and then throws a `TypeError` reading `raw[13]`, instead of
succeeding. -/
theorem status_frame_boundary (bs : List Nat) (h0 : bs[0]? = some 0x11) :
    (bs.length = 12 → part000_decodeUplink bs =
      .ok { data := none,
            errors := ["Invalid uplink payload: index out of bounds when reading status frame"] }) ∧
    (bs.length = 13 → part000_decodeUplink bs = .error .typeError) := by
  have hb : (bufferFrom bs)[0]? = some 17 := by rw [bufferFrom_head bs 0x11 h0]
  constructor
  · intro hlen
    rw [part000_decodeUplink, if_neg (by rw [bufferFrom_length]; omega), if_pos hb, p0Status,
      if_pos (by rw [bufferFrom_length]; omega)]
  · intro hlen
    rw [part000_decodeUplink, if_neg (by rw [bufferFrom_length]; omega), if_pos hb, p0Status,
      if_neg (by rw [bufferFrom_length]; omega),
      List.getElem?_eq_none (by rw [bufferFrom_length]; omega)]

/-- Witness for C4 at concrete 12- and 13-byte status frames. -/
theorem status_frame_boundary_witness :
    (part000_decodeUplink [0x11, 0, 0, 0, 0, 0, 0, 0, 0, 0, 0, 1] =
      .ok { data := none,
            errors := ["Invalid uplink payload: index out of bounds when reading status frame"] }) ∧
    (part000_decodeUplink [0x11, 0, 0, 0, 0, 0, 0, 0, 0, 0, 0, 1, 2] = .error .typeError) :=
  ⟨(status_frame_boundary [0x11, 0, 0, 0, 0, 0, 0, 0, 0, 0, 0, 1] (by decide)).1 (by decide),
   (status_frame_boundary [0x11, 0, 0, 0, 0, 0, 0, 0, 0, 0, 0, 1, 2] (by decide)).2 (by decide)⟩

/-- Counterexample to claim C5: on the exact bytes given by the spec the
secondary dispatch byte `raw[7]` is 5 (the slave identifier), not one of
the recognized sub-type tags, so part_000 returns the unknown-data-frame
error and no data instead of the gas-meter success the claim states. -/
theorem gas_frame_spec_bytes_fail :
    part000_decodeUplink [0x01, 10, 0, 0, 1, 0, 80, 5, 3, 0, 0, 0, 1, 4, 0, 0, 0, 42] =
      .ok { data := none, errors := ["Invalid uplink payload: unknown data frame type"] } := by
  decide

/-- Claim C5 as amended: with the dispatch byte at position 7 set to the
gas-meter tag `0x0a` (which is also the slave identifier, hence
`slave_id = 10` rather than 5), the decode succeeds via the gas-meter path
with all other fields as the claim states and `c1 = 42`. -/
theorem gas_frame_amended_succeeds :
    part000_decodeUplink [0x01, 10, 0, 0, 1, 0, 80, 0x0a, 3, 0, 0, 0, 1, 4, 0, 0, 0, 42] =
      .ok { data := some { frame_type := some "Data frame - GAS METER"
                           tcp_ip := some "10.0.0.1"
                           tcp_port := some (.int 80)
                           slave_id := some (.int 10)
                           modbus := some (.int 3)
                           start_value := some (.int 0)
                           registers_quiered := some (.int 1)
                           data_bytes := some (.int 4)
                           c1 := some (.int 42) } } := by
  decide

/-- Claim C6 (confirmed): in each of the three drivers, an uplink longer
than 30 bytes yields exactly one error — the payload-too-long message —
and no data field, before any further processing. -/
theorem payload_too_long_all_variants (bs : List Nat) (h : 30 < bs.length) :
    part000_decodeUplink bs = .ok { data := none, errors := [msgLen30] } ∧
    idx_decodeUplink bs = .ok { data := none, errors := [msgLen30] } ∧
    part001_decodeUplink bs = .ok { data := none, errors := [msgLen30] } := by
  refine ⟨?_, ?_, ?_⟩
  · rw [part000_decodeUplink, if_pos (by rw [bufferFrom_length]; omega)]
  · rw [idx_decodeUplink, if_pos (by rw [bufferFrom_length]; omega)]
  · rw [part001_decodeUplink, if_pos (by rw [bufferFrom_length]; omega)]

/-- Witness for C6 at a concrete 31-byte payload. -/
theorem payload_too_long_all_variants_witness :
    part000_decodeUplink (List.replicate 31 0) = .ok { data := none, errors := [msgLen30] } ∧
    idx_decodeUplink (List.replicate 31 0) = .ok { data := none, errors := [msgLen30] } ∧
    part001_decodeUplink (List.replicate 31 0) = .ok { data := none, errors := [msgLen30] } :=
  payload_too_long_all_variants (List.replicate 31 0) (by decide)

/-- Claim C7 (confirmed): `encodeDownlink` on `{pulseCounterThreshold: 10}`
returns bytes `[0x00, 10]` with `fPort = 16` and no errors, and on
`{pulseCounterThreshold: 300}` returns the range error with no bytes. -/
theorem encode_downlink_concrete_scenarios :
    encodeDownlink { pulseCounterThreshold := some 10 } =
      .ok { bytes := some [0, 10], fPort := some 16 } ∧
    encodeDownlink { pulseCounterThreshold := some 300 } =
      .ok { errors := ["Invalid downlink: pulseCounterThreshold cannot exceed 255"] } := by
  constructor
  · decide
  · decide

/-- Counterexample to claim C8: part_000 renders each device-ID byte with
unpadded `toString(16)`, so a status frame whose four ID bytes are all
`0xaa` yields the 10-character identifier `00aaaaaaaa`, not an
8-hex-digit string. -/
theorem device_id_not_always_8_digits :
    part000_decodeUplink [0x11, 0xaa, 0xaa, 0xaa, 0xaa, 0, 0, 0, 0, 0, 0, 0, 0, 0] =
      .ok { data := some { frame_type := some "Status frame"
                           device_id := some "00aaaaaaaa"
                           port := some (.int 0)
                           device_date_time := some (.int 0)
                           firmware := some "0.0.0"
                           name := some "0" } } ∧
    ("00aaaaaaaa" : String).length ≠ 8 := by
  constructor
  · decide
  · decide

/-- Claim C8 as amended: for every status frame long enough to decode
(14 to 30 bytes), the device ID is the literal prefix `00` followed by the
unpadded lowercase hexadecimal rendering of each of the 4 raw bytes; its
length therefore lies between 6 and 10 characters and need not be 8. -/
theorem device_id_unpadded_hex (bs : List Nat) (h0 : bs[0]? = some 0x11)
    (hlen : 14 ≤ bs.length) (hmax : bs.length ≤ 30) :
    ∃ d, part000_decodeUplink bs = .ok { data := some d } ∧
      d.device_id = some ("00" ++ byteHex ((bufferFrom bs).getD 1 0) ++
        byteHex ((bufferFrom bs).getD 2 0) ++ byteHex ((bufferFrom bs).getD 3 0) ++
        byteHex ((bufferFrom bs).getD 4 0)) ∧
      ∀ s, d.device_id = some s → 6 ≤ s.length ∧ s.length ≤ 10 := by
  have hb : (bufferFrom bs)[0]? = some 17 := by rw [bufferFrom_head bs 0x11 h0]
  have h13 : (bufferFrom bs)[13]? = some ((bufferFrom bs).get ⟨13, by rw [bufferFrom_length]; omega⟩) := by
    rw [List.getElem?_eq_getElem (by rw [bufferFrom_length]; omega)]
    rfl
  rw [part000_decodeUplink, if_neg (by rw [bufferFrom_length]; omega), if_pos hb, p0Status,
    if_neg (by rw [bufferFrom_length]; omega), h13]
  refine ⟨_, rfl, rfl, ?_⟩
  intro s hs
  injection hs with hs
  subst hs
  have l1 := byteHex_length ((bufferFrom bs).getD 1 0)
  have l2 := byteHex_length ((bufferFrom bs).getD 2 0)
  have l3 := byteHex_length ((bufferFrom bs).getD 3 0)
  have l4 := byteHex_length ((bufferFrom bs).getD 4 0)
  simp only [String.length_append]
  have h00 : ("00" : String).length = 2 := by decide
  rw [h00]
  omega

/-- Witness for C8 (amended) at a concrete 14-byte status frame. -/
theorem device_id_unpadded_hex_witness :
    ∃ d, part000_decodeUplink [0x11, 1, 2, 3, 4, 5, 0, 0, 0, 6, 1, 2, 3, 7] =
        .ok { data := some d } ∧
      d.device_id = some ("00" ++
        byteHex ((bufferFrom [0x11, 1, 2, 3, 4, 5, 0, 0, 0, 6, 1, 2, 3, 7]).getD 1 0) ++
        byteHex ((bufferFrom [0x11, 1, 2, 3, 4, 5, 0, 0, 0, 6, 1, 2, 3, 7]).getD 2 0) ++
        byteHex ((bufferFrom [0x11, 1, 2, 3, 4, 5, 0, 0, 0, 6, 1, 2, 3, 7]).getD 3 0) ++
        byteHex ((bufferFrom [0x11, 1, 2, 3, 4, 5, 0, 0, 0, 6, 1, 2, 3, 7]).getD 4 0)) ∧
      ∀ s, d.device_id = some s → 6 ≤ s.length ∧ s.length ≤ 10 :=
  device_id_unpadded_hex [0x11, 1, 2, 3, 4, 5, 0, 0, 0, 6, 1, 2, 3, 7]
    (by decide) (by decide) (by decide)

/-- Claim C9 (confirmed): part_001 dispatches on the first byte of
`Buffer.from(input.bytes.toString(16))`, which is empty or starts with a
decimal digit character (code 48-57), never `0x11` or `0x01`; hence for
every payload of at most 30 bytes the default branch runs, evaluates the
undeclared variable `i`, and throws — the function never returns decoded
data for any in-budget payload. -/
theorem part001_inbudget_always_throws (bytes : List Nat) (h : bytes.length ≤ 30) :
    part001_decodeUplink bytes = .error .referenceError := by
  rw [part001_decodeUplink]
  rw [if_neg (by rw [bufferFrom_length]; omega)]
  cases bytes with
  | nil => rfl
  | cons b rest =>
    obtain ⟨c, h48, h57, hc⟩ := rawHexOf_cons_head b rest
    have h1 : ¬((rawHexOf (b :: rest))[0]? = some 0x11) := by
      rw [hc]; intro hEq; injection hEq with hEq; omega
    have h2 : ¬((rawHexOf (b :: rest))[0]? = some 0x01) := by
      rw [hc]; intro hEq; injection hEq with hEq; omega
    rw [if_neg h1, if_neg h2]

/-- Witness for C9 at the one-byte payload `[0x11]`. -/
theorem part001_inbudget_always_throws_witness :
    part001_decodeUplink [0x11] = .error .referenceError :=
  part001_inbudget_always_throws [0x11] (by decide)

/-- Claim C10 (confirmed): `encodeDownlink` checks `pulseCounterThreshold`
only against the upper bound 255; on `{pulseCounterThreshold: -1}` the
unsigned byte write throws a `RangeError` instead of returning a
structured error result. -/
theorem encode_negative_threshold_throws :
    encodeDownlink { pulseCounterThreshold := some (-1) } = .error .rangeError := by
  decide
